import Mathlib

/-!
Verification of the trading-alert application (src/oanda_live.py) against its
natural-language specification.  The Python source is shallowly embedded:

* the SQLite `alerts` table becomes a `List Alert`;
* each SQL statement of the source becomes a pure function on that list;
* Python `float` prices become `ℚ` (exact arithmetic, mirroring the numeric
  expressions of the source);
* Python string operations (`strip`, `upper`, `in`, `startswith`, slicing)
  are modelled on the code-point list `String.data`, matching Python's
  code-point semantics for the ASCII symbols the application handles;
* Python truthiness (`x or y`, `if not data`, `if not TOKEN`) is modelled
  explicitly: `None` and `0.0` are falsy for floats, `None` and `""` for
  strings;
* the worker thread's per-cycle body (`worker_loop`, one pass over the rows
  read as `active`) becomes `workerCycle`, returning the updated store and
  the list of notification attempts made during the cycle.
-/

namespace TradingAlert

/-- Python `s.upper()` for the ASCII symbols handled by the app:
map `Char.toUpper` over the code points. -/
def pyUpper (s : String) : String :=
  ⟨s.data.map Char.toUpper⟩

/-- Python `s.strip()`: remove leading and trailing whitespace. -/
def pyStrip (s : String) : String :=
  ⟨((s.data.dropWhile Char.isWhitespace).reverse.dropWhile Char.isWhitespace).reverse⟩

/-- Python `c in s` for a single character. -/
def pyContains (s : String) (c : Char) : Bool :=
  s.data.contains c

/-- Python `s.startswith(p)`. -/
def pyStartsWith (s p : String) : Bool :=
  p.data.isPrefixOf s.data

/-- Python truthiness of an optional float: `None` and `0.0` are falsy. -/
def pyTruthyQ : Option ℚ → Bool
  | none => false
  | some q => q != 0

/-- Python `x or y` on optional floats: the first operand if truthy, else the
second operand as-is (source lines 141 and 173). -/
def pyOrQ (x y : Option ℚ) : Option ℚ :=
  if pyTruthyQ x then x else y

/-- Python truthiness of an optional string (an unset or empty
environment variable is falsy). -/
def pyTruthyStr : Option String → Bool
  | none => false
  | some s => s != ""

/-- The INSTRUMENT_OVERRIDES table of the source (line 36). -/
def INSTRUMENT_OVERRIDES : List (String × String) :=
  [("XAUUSD", "XAU_USD")]

/-- Embedding of `to_oanda_instrument` (source lines 74-82): strip and
uppercase, then apply the override table, else keep an already-delimited
code, else split off the last three characters as the quote currency. -/
def to_oanda_instrument (sym : String) : String :=
  let s := pyUpper (pyStrip sym)
  match INSTRUMENT_OVERRIDES.lookup s with
  | some v => v
  | none =>
    if pyContains s '_' then s
    else if s.length > 3 then s.dropRight 3 ++ "_" ++ s.takeRight 3
    else s

/-- Outcome of one HTTP POST attempt by the notifier: either a response with a
status code and body, or a raised exception. -/
inductive HttpOutcome where
  | response (status : Nat) (text : String)
  | exn (msg : String)
deriving DecidableEq

/-- Embedding of `send_telegram` (source lines 84-96): returns `false` when the
bot token or chat id is unset or empty, `false` when the POST raises, and
otherwise reports whether the status code was 200.  It is a total function:
every exception of the transport is caught. -/
def send_telegram (botToken chatId : Option String) (transport : HttpOutcome) : Bool :=
  if !pyTruthyStr botToken || !pyTruthyStr chatId then false
  else
    match transport with
    | .response status _ => status == 200
    | .exn _ => false

/-- A per-instrument quote as assembled by `fetch_prices`. -/
structure Quote where
  bid : Option ℚ
  ask : Option ℚ
  mid : Option ℚ
deriving DecidableEq

/-- The mid computation of `fetch_prices` (source line 141):
`(bid + ask)/2.0 if (bid is not None and ask is not None) else (bid or ask)`. -/
def mkMid (bid ask : Option ℚ) : Option ℚ :=
  match bid, ask with
  | some b, some a => some ((b + a) / 2)
  | _, _ => pyOrQ bid ask

/-- Quote assembly of `fetch_prices` (source lines 138-142): the first bid and
first ask when present, and the derived mid. -/
def mkQuote (bids asks : List ℚ) : Quote :=
  let bid := bids.head?
  let ask := asks.head?
  ⟨bid, ask, mkMid bid ask⟩

/-- The last-price selection of the worker (source line 173):
`data.get("mid") or data.get("bid") or data.get("ask")`. -/
def lastPrice (q : Quote) : Option ℚ :=
  pyOrQ (pyOrQ q.mid q.bid) q.ask

/-- A row of the `alerts` table (source lines 44-56). -/
structure Alert where
  id : Nat
  instrument : String
  oanda_instrument : String
  direction : String
  target : ℚ
  note : String
  status : String
  created_ts : Nat
  triggered_ts : Option Nat
  triggered_price : Option ℚ
deriving DecidableEq

/-- The UPDATE of the trigger transition (source line 199 and, with a fixed
price, the `/force_trigger` route at line 373):
`UPDATE alerts SET status='triggered', triggered_ts=?, triggered_price=? WHERE id=?`.
Note the WHERE clause matches on id only. -/
def markTriggered (store : List Alert) (aid ts : Nat) (price : ℚ) : List Alert :=
  store.map fun a =>
    if a.id = aid then
      { a with status := "triggered", triggered_ts := some ts, triggered_price := some price }
    else a

/-- The `/cancel` route (source line 330):
`UPDATE alerts SET status='cancelled' WHERE id=?`.
Note the WHERE clause matches on id only. -/
def cancelAlert (store : List Alert) (aid : Nat) : List Alert :=
  store.map fun a =>
    if a.id = aid then { a with status := "cancelled" } else a

/-- The `/force_trigger/<aid>` route (source lines 370-374). -/
def force_trigger (store : List Alert) (aid ts : Nat) : List Alert :=
  markTriggered store aid ts (Rat.divInt 1234567 1000000)

/-- SQLite AUTOINCREMENT id assignment: one more than the largest id used. -/
def nextId (store : List Alert) : Nat :=
  (store.map Alert.id).foldl max 0 + 1

/-- The parsed form of a `/create` POST.  `target` is the result of Python
`float(...)` on the raw target field: `none` when parsing raised. -/
structure CreateForm where
  symbol : String
  direction : String
  target : Option ℚ
  note : String
deriving DecidableEq

/-- Embedding of the `/create` route (source lines 311-325): reject with a 400
response when the target does not parse; otherwise insert a new row with
status `active`.  The direction field is stored as received. -/
def create_alert (form : CreateForm) (now : Nat) (store : List Alert) :
    Except String (List Alert) :=
  match form.target with
  | none => .error "Invalid target"
  | some t =>
    let instrument := pyUpper (pyStrip form.symbol)
    .ok (store ++ [{
      id := nextId store,
      instrument := instrument,
      oanda_instrument := to_oanda_instrument instrument,
      direction := form.direction,
      target := t,
      note := form.note,
      status := "active",
      created_ts := now,
      triggered_ts := none,
      triggered_price := none }])

/-- The touch tolerance of the worker (source lines 190-193): 0.1 for
instruments whose code starts with XAU, else 0.0001. -/
def touchEps (oanda_inst : String) : ℚ :=
  if pyStartsWith oanda_inst "XAU" then Rat.divInt 1 10 else Rat.divInt 1 10000

/-- The trigger predicate of the worker (source lines 183-195). -/
def isTriggered (direction oanda_inst : String) (last_val target_val : ℚ) : Bool :=
  if direction = "above" then decide (target_val ≤ last_val)
  else if direction = "below" then decide (last_val ≤ target_val)
  else if direction = "touch" then decide (|last_val - target_val| ≤ touchEps oanda_inst)
  else false

/-- One notification attempt: the data from which the worker composes its
message and calls `send_telegram` (source lines 198-211). -/
structure TriggerEvent where
  id : Nat
  instrument : String
  direction : String
  target : ℚ
  price : ℚ
  ts : Nat
deriving DecidableEq

/-- The body of the worker's per-row check (source lines 167-211): skip when
the instrument has no quote or no usable price field; otherwise evaluate the
trigger predicate, and on a trigger run the UPDATE and attempt one
notification. -/
def processRow (prices : String → Option Quote) (ts : Nat)
    (acc : List Alert × List TriggerEvent) (r : Alert) :
    List Alert × List TriggerEvent :=
  match prices r.oanda_instrument with
  | none => acc
  | some data =>
    match lastPrice data with
    | none => acc
    | some last_val =>
      if isTriggered r.direction r.oanda_instrument last_val r.target then
        (markTriggered acc.1 r.id ts last_val,
         acc.2 ++ [⟨r.id, r.instrument, r.direction, r.target, last_val, ts⟩])
      else acc

/-- The rows read at the start of a cycle (source line 158):
`SELECT ... FROM alerts WHERE status='active'`. -/
def activeRows (store : List Alert) : List Alert :=
  store.filter fun a => a.status = "active"

/-- One full pass of `worker_loop` (source lines 158-211): snapshot the active
rows, then process each in order, threading the store; the second component
lists the notification attempts made during the cycle. -/
def workerCycle (prices : String → Option Quote) (ts : Nat) (store : List Alert) :
    List Alert × List TriggerEvent :=
  (activeRows store).foldl (processRow prices ts) (store, [])

/-- Iterated evaluation passes of `worker_loop`: run one cycle per
(prices, timestamp) pair, threading the store through. -/
def runCycles : List ((String → Option Quote) × Nat) → List Alert → List Alert
  | [], store => store
  | (p, t) :: rest, store => runCycles rest (workerCycle p t store).1

/-- The stores reachable from the empty table by the operations the
application exposes: creation, cancellation, an engine evaluation pass, and
the diagnostic force-trigger. -/
inductive Reachable : List Alert → Prop where
  | empty : Reachable []
  | create : ∀ {s s' : List Alert} (form : CreateForm) (now : Nat), Reachable s →
      create_alert form now s = .ok s' → Reachable s'
  | cancel : ∀ {s : List Alert} (aid : Nat), Reachable s → Reachable (cancelAlert s aid)
  | engine : ∀ {s : List Alert} (prices : String → Option Quote) (ts : Nat), Reachable s →
      Reachable (workerCycle prices ts s).1
  | force : ∀ {s : List Alert} (aid ts : Nat), Reachable s → Reachable (force_trigger s aid ts)

/-- Every row carrying the given id is in status triggered. -/
def idTriggered (s : List Alert) (i : Nat) : Prop :=
  ∀ a ∈ s, a.id = i → a.status = "triggered"

/-- Every triggered row has its trigger timestamp and price set. -/
def TriggeredInv (s : List Alert) : Prop :=
  ∀ a ∈ s, a.status = "triggered" → a.triggered_ts ≠ none ∧ a.triggered_price ≠ none

/-- A creation request whose direction is not one of the three enumerated
values but whose target parses. -/
def c6Form : CreateForm :=
  { symbol := "EURUSD", direction := "sideways", target := some 1, note := "" }

/-- A creation request whose target field failed to parse. -/
def c6FormBad : CreateForm :=
  { symbol := "EURUSD", direction := "sideways", target := none, note := "" }

/-- A store holding a single already-triggered alert. -/
def c3Store : List Alert :=
  [{ id := 1, instrument := "EURUSD", oanda_instrument := "EUR_USD",
     direction := "above", target := 1, note := "", status := "triggered",
     created_ts := 0, triggered_ts := some 50, triggered_price := some 2 }]

/-- The triggered row of `c3Store`. -/
def c3Row : Alert :=
  { id := 1, instrument := "EURUSD", oanda_instrument := "EUR_USD",
    direction := "above", target := 1, note := "", status := "triggered",
    created_ts := 0, triggered_ts := some 50, triggered_price := some 2 }

/-- A store holding a single already-cancelled alert. -/
def c1Store : List Alert :=
  [{ id := 1, instrument := "EURUSD", oanda_instrument := "EUR_USD",
     direction := "above", target := 1, note := "", status := "cancelled",
     created_ts := 0, triggered_ts := none, triggered_price := none }]

/-- The two-alert store of the C1 witness scenario. -/
def c1wStore : List Alert :=
  [{ id := 1, instrument := "EURUSD", oanda_instrument := "EUR_USD",
     direction := "above", target := 1, note := "", status := "active",
     created_ts := 0, triggered_ts := none, triggered_price := none },
   { id := 2, instrument := "EURUSD", oanda_instrument := "EUR_USD",
     direction := "above", target := 3, note := "", status := "active",
     created_ts := 0, triggered_ts := none, triggered_price := none }]

/-- Quotes of the first C1 witness cycle: bid 2 for EUR_USD. -/
def c1wPrices1 : String → Option Quote := fun s =>
  if s = "EUR_USD" then some (mkQuote [2] []) else none

/-- Quotes of the second C1 witness cycle: bid 4 for EUR_USD. -/
def c1wPrices2 : String → Option Quote := fun s =>
  if s = "EUR_USD" then some (mkQuote [4] []) else none

/-- The creation request used to reach the C2 stores. -/
def c2CreateForm : CreateForm :=
  { symbol := "EURUSD", direction := "above", target := some 1, note := "" }

/-- The store after creating one alert: one active EURUSD row. -/
def s1 : List Alert :=
  [{ id := 1, instrument := "EURUSD", oanda_instrument := "EUR_USD",
     direction := "above", target := 1, note := "", status := "active",
     created_ts := 0, triggered_ts := none, triggered_price := none }]

/-- The single active row of `s1`. -/
def s1Row : Alert :=
  { id := 1, instrument := "EURUSD", oanda_instrument := "EUR_USD",
    direction := "above", target := 1, note := "", status := "active",
    created_ts := 0, triggered_ts := none, triggered_price := none }

/-- The store after create, force-trigger, cancel: the cancel overwrote the
status while the trigger fields survived. -/
def c2Store : List Alert := cancelAlert (force_trigger s1 1 50) 1

/-- The row of `c2Store`: cancelled status with trigger fields still set. -/
def c2Row : Alert :=
  { id := 1, instrument := "EURUSD", oanda_instrument := "EUR_USD",
    direction := "above", target := 1, note := "", status := "cancelled",
    created_ts := 0, triggered_ts := some 50,
    triggered_price := some (Rat.divInt 1234567 1000000) }

/-- The row of `force_trigger s1 1 50`: the force-triggered alert. -/
def c2wRow : Alert :=
  { id := 1, instrument := "EURUSD", oanda_instrument := "EUR_USD",
    direction := "above", target := 1, note := "", status := "triggered",
    created_ts := 0, triggered_ts := some 50,
    triggered_price := some (Rat.divInt 1234567 1000000) }

/-- The one-alert store of the C10 counterexample: a below alert at target 1. -/
def c10Store : List Alert :=
  [{ id := 1, instrument := "EURUSD", oanda_instrument := "EUR_USD",
     direction := "below", target := 1, note := "", status := "active",
     created_ts := 0, triggered_ts := none, triggered_price := none }]

/-- Quotes of the C10 counterexample: EUR_USD has no bids and a 0.0 ask. -/
def c10Prices : String → Option Quote := fun s =>
  if s = "EUR_USD" then some (mkQuote [] [0]) else none

/-! Helper lemmas about the store operations and the worker cycle. -/

lemma mem_markTriggered_of_ne {s : List Alert} {a : Alert} (h : a ∈ s) {aid : Nat}
    (hne : a.id ≠ aid) (ts : Nat) (p : ℚ) : a ∈ markTriggered s aid ts p := by
  simp only [markTriggered, List.mem_map]
  exact ⟨a, h, if_neg hne⟩

/-- Case analysis on one worker row check: either the row is skipped and the
accumulator unchanged, or the alert triggered and the accumulator records the
UPDATE and the notification attempt. -/
lemma processRow_eq (prices : String → Option Quote) (ts : Nat)
    (acc : List Alert × List TriggerEvent) (r : Alert) :
    processRow prices ts acc r = acc ∨
    ∃ data v, prices r.oanda_instrument = some data ∧ lastPrice data = some v ∧
      isTriggered r.direction r.oanda_instrument v r.target = true ∧
      processRow prices ts acc r =
        (markTriggered acc.1 r.id ts v,
          acc.2 ++ [⟨r.id, r.instrument, r.direction, r.target, v, ts⟩]) := by
  unfold processRow
  split
  · exact Or.inl rfl
  · rename_i data heq
    split
    · exact Or.inl rfl
    · rename_i v hl
      split
      · rename_i ht
        exact Or.inr ⟨data, v, heq, hl, ht, rfl⟩
      · exact Or.inl rfl

lemma idTriggered_markTriggered_mono {s : List Alert} {i : Nat} (h : idTriggered s i)
    (aid ts : Nat) (p : ℚ) : idTriggered (markTriggered s aid ts p) i := by
  intro a ha hai
  simp only [markTriggered, List.mem_map] at ha
  obtain ⟨b, hb, hfb⟩ := ha
  by_cases hid : b.id = aid
  · rw [if_pos hid] at hfb
    subst hfb
    rfl
  · rw [if_neg hid] at hfb
    subst hfb
    exact h b hb hai

lemma idTriggered_markTriggered_self (s : List Alert) (i ts : Nat) (p : ℚ) :
    idTriggered (markTriggered s i ts p) i := by
  intro a ha hai
  simp only [markTriggered, List.mem_map] at ha
  obtain ⟨b, hb, hfb⟩ := ha
  by_cases hid : b.id = i
  · rw [if_pos hid] at hfb
    subst hfb
    rfl
  · rw [if_neg hid] at hfb
    subst hfb
    exact absurd hai hid

/-- Every notification attempted during a cycle leaves every row with its id
in status triggered in the store the cycle produces. -/
lemma workerCycle_events_triggered (prices : String → Option Quote) (ts : Nat)
    (store : List Alert) :
    ∀ ev ∈ (workerCycle prices ts store).2,
      idTriggered (workerCycle prices ts store).1 ev.id := by
  unfold workerCycle
  refine List.foldlRecOn (motive := fun acc => ∀ ev ∈ acc.2, idTriggered acc.1 ev.id)
    (activeRows store) (processRow prices ts) (store, []) ?_ ?_
  · intro ev hev
    simp at hev
  · intro acc hacc r hr
    rcases processRow_eq prices ts acc r with heq | ⟨data, v, hp, hl, ht, heq⟩
    · rw [heq]
      exact hacc
    · rw [heq]
      intro ev hev
      rcases List.mem_append.1 hev with h1 | h2
      · exact idTriggered_markTriggered_mono (hacc ev h1) r.id ts v
      · have he : ev = ⟨r.id, r.instrument, r.direction, r.target, v, ts⟩ := by
          simpa using h2
        subst he
        exact idTriggered_markTriggered_self acc.1 r.id ts v

/-- Every notification attempted during a cycle stems from a row that was in
status active in the store the cycle started from. -/
lemma workerCycle_events_from_active (prices : String → Option Quote) (ts : Nat)
    (store : List Alert) :
    ∀ ev ∈ (workerCycle prices ts store).2,
      ∃ r ∈ store, r.status = "active" ∧ r.id = ev.id := by
  unfold workerCycle
  refine List.foldlRecOn
    (motive := fun acc => ∀ ev ∈ acc.2, ∃ r ∈ store, r.status = "active" ∧ r.id = ev.id)
    (activeRows store) (processRow prices ts) (store, []) ?_ ?_
  · intro ev hev
    simp at hev
  · intro acc hacc r hr
    rcases processRow_eq prices ts acc r with heq | ⟨data, v, hp, hl, ht, heq⟩
    · rw [heq]
      exact hacc
    · rw [heq]
      intro ev hev
      rcases List.mem_append.1 hev with h1 | h2
      · exact hacc ev h1
      · have he : ev = ⟨r.id, r.instrument, r.direction, r.target, v, ts⟩ := by
          simpa using h2
        subst he
        have hmem := List.mem_filter.1 hr
        exact ⟨r, hmem.1, by simpa using hmem.2, rfl⟩

/-- One evaluation pass never moves a fully-triggered id out of status
triggered: the only store change a pass makes is the trigger UPDATE, which
sets status triggered itself. -/
lemma idTriggered_workerCycle (prices : String → Option Quote) (ts : Nat)
    {s : List Alert} {i : Nat} (h : idTriggered s i) :
    idTriggered (workerCycle prices ts s).1 i := by
  unfold workerCycle
  refine List.foldlRecOn (motive := fun acc => idTriggered acc.1 i)
    (activeRows s) (processRow prices ts) (s, []) h ?_
  intro acc hacc r _
  rcases processRow_eq prices ts acc r with heq | ⟨data, v, hp, hl, ht, heq⟩
  · rw [heq]
    exact hacc
  · rw [heq]
    exact idTriggered_markTriggered_mono hacc r.id ts v

/-- Any number of further evaluation passes preserves a fully-triggered id. -/
lemma idTriggered_runCycles (ps : List ((String → Option Quote) × Nat))
    {s : List Alert} {i : Nat} (h : idTriggered s i) :
    idTriggered (runCycles ps s) i := by
  induction ps generalizing s with
  | nil => exact h
  | cons p rest ih =>
    obtain ⟨prices, ts⟩ := p
    exact ih (idTriggered_workerCycle prices ts h)

lemma triggeredInv_markTriggered {s : List Alert} (h : TriggeredInv s)
    (aid ts : Nat) (p : ℚ) : TriggeredInv (markTriggered s aid ts p) := by
  intro a ha hst
  simp only [markTriggered, List.mem_map] at ha
  obtain ⟨b, hb, hfb⟩ := ha
  by_cases hid : b.id = aid
  · rw [if_pos hid] at hfb
    subst hfb
    exact ⟨by simp, by simp⟩
  · rw [if_neg hid] at hfb
    subst hfb
    exact h b hb hst

lemma triggeredInv_cancel {s : List Alert} (h : TriggeredInv s) (aid : Nat) :
    TriggeredInv (cancelAlert s aid) := by
  intro a ha hst
  simp only [cancelAlert, List.mem_map] at ha
  obtain ⟨b, hb, hfb⟩ := ha
  by_cases hid : b.id = aid
  · rw [if_pos hid] at hfb
    subst hfb
    simp at hst
  · rw [if_neg hid] at hfb
    subst hfb
    exact h b hb hst

lemma triggeredInv_workerCycle (prices : String → Option Quote) (ts : Nat)
    {s : List Alert} (h : TriggeredInv s) : TriggeredInv (workerCycle prices ts s).1 := by
  unfold workerCycle
  refine List.foldlRecOn (motive := fun acc => TriggeredInv acc.1)
    (activeRows s) (processRow prices ts) (s, []) h ?_
  intro acc hacc r _
  rcases processRow_eq prices ts acc r with heq | ⟨data, v, hp, hl, ht, heq⟩
  · rw [heq]
    exact hacc
  · rw [heq]
    exact triggeredInv_markTriggered hacc r.id ts v

lemma triggeredInv_create {form : CreateForm} {now : Nat} {s s' : List Alert}
    (h : TriggeredInv s) (hok : create_alert form now s = .ok s') : TriggeredInv s' := by
  unfold create_alert at hok
  cases htar : form.target with
  | none =>
    rw [htar] at hok
    exact absurd hok (by simp)
  | some t =>
    rw [htar] at hok
    cases hok
    intro a ha hst
    rcases List.mem_append.1 ha with h1 | h2
    · exact h a h1 hst
    · rw [List.mem_singleton] at h2
      subst h2
      simp at hst

/-! The claims. -/

/-- C5: instrument code derivation, as implemented by `to_oanda_instrument`, is
a pure function of the symbol.  After stripping and uppercasing: a symbol in
the override table (here exactly XAUUSD) maps to its override value XAU_USD;
a symbol already containing the underscore delimiter maps to itself; any other
symbol longer than three characters maps to its prefix and its last three
characters joined by an underscore; and the derivation is deterministic — the
same symbol always yields the same code. -/
theorem C5_instrument_code_derivation (sym : String) :
    (pyUpper (pyStrip sym) = "XAUUSD" → to_oanda_instrument sym = "XAU_USD") ∧
    (pyUpper (pyStrip sym) ≠ "XAUUSD" → pyContains (pyUpper (pyStrip sym)) '_' = true →
      to_oanda_instrument sym = pyUpper (pyStrip sym)) ∧
    (pyUpper (pyStrip sym) ≠ "XAUUSD" → pyContains (pyUpper (pyStrip sym)) '_' = false →
      (pyUpper (pyStrip sym)).length > 3 →
      to_oanda_instrument sym =
        (pyUpper (pyStrip sym)).dropRight 3 ++ "_" ++ (pyUpper (pyStrip sym)).takeRight 3) ∧
    (∀ sym2 : String, sym = sym2 → to_oanda_instrument sym = to_oanda_instrument sym2) := by
  refine ⟨?_, ?_, ?_, ?_⟩
  · intro h
    simp [to_oanda_instrument, INSTRUMENT_OVERRIDES, List.lookup, h]
  · intro h hu
    have hb : (pyUpper (pyStrip sym) == "XAUUSD") = false := by simpa using h
    simp [to_oanda_instrument, INSTRUMENT_OVERRIDES, List.lookup, hb, hu]
  · intro h hu hlen
    have hb : (pyUpper (pyStrip sym) == "XAUUSD") = false := by simpa using h
    simp [to_oanda_instrument, INSTRUMENT_OVERRIDES, List.lookup, hb, hu, hlen]
  · intro sym2 h
    rw [h]

/-- Witness for C5 at a concrete symbol: a padded lowercase currency pair
resolves through the split branch to EUR_USD. -/
theorem C5_witness : to_oanda_instrument " eurusd " = "EUR_USD" :=
  ((C5_instrument_code_derivation " eurusd ").2.2.1
    (by decide) (by decide) (by decide)).trans (by decide)

/-- C9: the notifier `send_telegram` is a total function (every transport
exception is caught, so it never raises to its caller); it returns false when
the bot token or chat id is unset or empty, false when the POST raised or the
response status is not 200, and true exactly when the provider responded with
status 200. -/
theorem C9_notify_never_raises (bt ci : Option String) (tr : HttpOutcome) :
    (pyTruthyStr bt = false ∨ pyTruthyStr ci = false → send_telegram bt ci tr = false) ∧
    (∀ m, tr = .exn m → send_telegram bt ci tr = false) ∧
    (∀ st txt, tr = .response st txt → st ≠ 200 → send_telegram bt ci tr = false) ∧
    (send_telegram bt ci tr = true ↔
      pyTruthyStr bt = true ∧ pyTruthyStr ci = true ∧ ∃ txt, tr = .response 200 txt) := by
  unfold send_telegram
  by_cases hb : pyTruthyStr bt <;> by_cases hc : pyTruthyStr ci <;>
    cases tr <;> simp [hb, hc, beq_iff_eq]

/-- Witness for C9: with configured credentials the notifier reports the
provider's success, and with a missing token it returns false. -/
theorem C9_witness :
    send_telegram (some "t") (some "c") (.response 200 "ok") = true ∧
    send_telegram none (some "c") (.response 200 "ok") = false :=
  ⟨((C9_notify_never_raises (some "t") (some "c") (.response 200 "ok")).2.2.2).mpr
      ⟨by decide, by decide, "ok", rfl⟩,
    (C9_notify_never_raises none (some "c") (.response 200 "ok")).1 (Or.inl (by decide))⟩

/-- Counterexample to C7: a quote whose only present side is a bid of exactly
0.0 gets an unavailable mid, not a mid of 0.0, because the source computes
`bid or ask` and Python treats 0.0 as falsy. -/
theorem C7_counterexample :
    (mkQuote [0] []).bid = some 0 ∧ (mkQuote [0] []).ask = none ∧
    (mkQuote [0] []).mid ≠ some 0 ∧ (mkQuote [0] []).mid = none := by
  refine ⟨rfl, rfl, by decide, by decide⟩

/-- C7 as amended: mid is the average when both sides are present, the present
side when exactly one side is present — except that a lone bid equal to 0.0
yields an unavailable mid — and unavailable when neither side is present. -/
theorem C7_mid_amended (b a : ℚ) :
    mkMid (some b) (some a) = some ((b + a) / 2) ∧
    (b ≠ 0 → mkMid (some b) none = some b) ∧
    mkMid (some 0) none = none ∧
    mkMid none (some a) = some a ∧
    mkMid none none = none := by
  refine ⟨rfl, ?_, by decide, rfl, rfl⟩
  intro hb
  simp [mkMid, pyOrQ, pyTruthyQ, hb]

/-- Witness for C7: a lone nonzero bid becomes the mid. -/
theorem C7_witness : mkMid (some 1) none = some 1 :=
  (C7_mid_amended 1 0).2.1 (by norm_num)

/-- Counterexample to C6: the `/create` route never validates the direction
field, so a request with direction "sideways" succeeds and inserts an active
row instead of failing with a validation error. -/
theorem C6_counterexample :
    c6Form.direction ∉ (["above", "below", "touch"] : List String) ∧
    create_alert c6Form 0 [] =
      .ok [{ id := 1, instrument := "EURUSD", oanda_instrument := "EUR_USD",
             direction := "sideways", target := 1, note := "", status := "active",
             created_ts := 0, triggered_ts := none, triggered_price := none }] := by
  refine ⟨by decide, by rfl⟩

/-- C6 as amended: creation fails with the validation error, inserting
nothing, exactly when the target does not parse as a float; the direction is
not validated, so for every direction string and parseable target a new row is
appended with status active, carrying the given direction and target. -/
theorem C6_create_amended (form : CreateForm) (now : Nat) (store : List Alert) :
    (form.target = none → create_alert form now store = .error "Invalid target") ∧
    (∀ t : ℚ, form.target = some t →
      ∃ row : Alert, create_alert form now store = .ok (store ++ [row]) ∧
        row.status = "active" ∧ row.direction = form.direction ∧ row.target = t ∧
        row.triggered_ts = none ∧ row.triggered_price = none) := by
  constructor
  · intro h
    simp [create_alert, h]
  · intro t h
    simp only [create_alert, h]
    exact ⟨_, rfl, rfl, rfl, rfl, rfl, rfl⟩

/-- Witness for C6: a parse failure is rejected with the validation error. -/
theorem C6_witness : create_alert c6FormBad 0 [] = .error "Invalid target" :=
  (C6_create_amended c6FormBad 0 []).1 rfl

/-- Counterexample to C3: the `/cancel` route runs
`UPDATE alerts SET status='cancelled' WHERE id=?` with no status guard, so
cancelling an alert whose status is triggered does change the record — its
status becomes cancelled rather than remaining triggered. -/
theorem C3_counterexample :
    c3Store.map Alert.status = ["triggered"] ∧
    cancelAlert c3Store 1 ≠ c3Store ∧
    (cancelAlert c3Store 1).map Alert.status = ["cancelled"] := by
  refine ⟨by decide, by decide, by decide⟩

/-- C3 as amended: cancel sets status to cancelled unconditionally on every
row with the requested id, regardless of the current status (in particular a
triggered alert's status becomes cancelled, all other fields kept); rows with
a different id are untouched; and the operation is idempotent. -/
theorem C3_cancel_amended (store : List Alert) (aid : Nat) :
    (∀ a ∈ store, a.id = aid → { a with status := "cancelled" } ∈ cancelAlert store aid) ∧
    (∀ a ∈ store, a.id ≠ aid → a ∈ cancelAlert store aid) ∧
    cancelAlert (cancelAlert store aid) aid = cancelAlert store aid := by
  refine ⟨?_, ?_, ?_⟩
  · intro a ha hid
    simp only [cancelAlert, List.mem_map]
    exact ⟨a, ha, by rw [if_pos hid]⟩
  · intro a ha hid
    simp only [cancelAlert, List.mem_map]
    exact ⟨a, ha, by rw [if_neg hid]⟩
  · simp only [cancelAlert, List.map_map]
    apply List.map_congr_left
    intro a _
    by_cases hid : a.id = aid <;> simp [hid]

/-- Witness for C3: cancelling the triggered alert of `c3Store` yields the
same record with status cancelled, the trigger fields still set. -/
theorem C3_witness :
    { c3Row with status := "cancelled" } ∈ cancelAlert c3Store 1 :=
  (C3_cancel_amended c3Store 1).1 c3Row (by decide) rfl

/-- C4: the trigger predicate of the worker matches the spec: direction above
triggers exactly when the observed price is at least the target, below exactly
when it is at most the target, and touch exactly when the absolute difference
is within the instrument-class tolerance, which is 0.1 for instruments whose
resolved code starts with XAU and 0.0001 otherwise; concretely, a 0.05
difference triggers a touch on XAU_USD but not on EUR_USD. -/
theorem C4_trigger_predicate (inst : String) (lastv targetv : ℚ) :
    (isTriggered "above" inst lastv targetv = true ↔ targetv ≤ lastv) ∧
    (isTriggered "below" inst lastv targetv = true ↔ lastv ≤ targetv) ∧
    (isTriggered "touch" inst lastv targetv = true ↔
      |lastv - targetv| ≤ touchEps inst) ∧
    (pyStartsWith inst "XAU" = true → touchEps inst = Rat.divInt 1 10) ∧
    (pyStartsWith inst "XAU" = false → touchEps inst = Rat.divInt 1 10000) ∧
    isTriggered "touch" "XAU_USD" (2000 + Rat.divInt 1 20) 2000 = true ∧
    isTriggered "touch" "EUR_USD" (1 + Rat.divInt 1 20) 1 = false := by
  refine ⟨by simp [isTriggered], by simp [isTriggered], by simp [isTriggered],
    ?_, ?_, ?_, ?_⟩
  · intro h; simp [touchEps, h]
  · intro h; simp [touchEps, h]
  · have h : pyStartsWith "XAU_USD" "XAU" = true := by decide
    simp only [isTriggered]
    simp [touchEps, h, Rat.divInt_eq_div]
    rw [abs_of_nonneg (by norm_num : (0:ℚ) ≤ (20:ℚ)⁻¹)]
    norm_num
  · have h : pyStartsWith "EUR_USD" "XAU" = false := by decide
    simp only [isTriggered]
    simp [touchEps, h, Rat.divInt_eq_div]
    rw [abs_of_nonneg (by norm_num : (0:ℚ) ≤ (20:ℚ)⁻¹)]
    norm_num

/-- Witness for C4: the tolerance really is one tenth for the metal code and
one ten-thousandth for a currency pair. -/
theorem C4_witness :
    touchEps "XAU_USD" = Rat.divInt 1 10 ∧ touchEps "EUR_USD" = Rat.divInt 1 10000 :=
  ⟨(C4_trigger_predicate "XAU_USD" 0 0).2.2.2.1 (by decide),
   (C4_trigger_predicate "EUR_USD" 0 0).2.2.2.2.1 (by decide)⟩

/-- Counterexample to C1: the trigger UPDATE has no status guard, so invoking
it on an already-cancelled row changes the row — its status becomes
triggered. -/
theorem C1_counterexample :
    c1Store.map Alert.status = ["cancelled"] ∧
    markTriggered c1Store 1 9 2 ≠ c1Store ∧
    (markTriggered c1Store 1 9 2).map Alert.status = ["triggered"] := by
  refine ⟨by decide, by decide, by decide⟩

/-- C1 as amended: the trigger UPDATE overwrites every row with the requested
id regardless of its current status (first conjunct), and the worker attempts
a notification whenever its predicate fires on a row it read as active; still,
across purely sequential evaluation passes each alert is notified in at most
one pass, because a notified alert ends the pass in status triggered and is
not listed as active by any later pass (second conjunct: a notification
attempt of one cycle shares no alert id with a notification attempt of any
strictly later cycle, however many passes lie in between). -/
theorem C1_unguarded_trigger :
    (∀ (store : List Alert) (aid ts : Nat) (p : ℚ) (a : Alert), a ∈ store → a.id = aid →
      { a with status := "triggered", triggered_ts := some ts, triggered_price := some p }
        ∈ markTriggered store aid ts p) ∧
    (∀ (prices : String → Option Quote) (ts : Nat) (store : List Alert)
        (ev1 : TriggerEvent),
      ev1 ∈ (workerCycle prices ts store).2 →
      ∀ (ps : List ((String → Option Quote) × Nat)) (prices2 : String → Option Quote)
        (ts2 : Nat) (ev2 : TriggerEvent),
      ev2 ∈ (workerCycle prices2 ts2 (runCycles ps (workerCycle prices ts store).1)).2 →
      ev1.id ≠ ev2.id) := by
  constructor
  · intro store aid ts p a ha hid
    simp only [markTriggered, List.mem_map]
    exact ⟨a, ha, by rw [if_pos hid]⟩
  · intro prices ts store ev1 h1 ps prices2 ts2 ev2 h2 heq
    obtain ⟨r, hrmem, hract, hrid⟩ :=
      workerCycle_events_from_active prices2 ts2 _ ev2 h2
    have htrig := idTriggered_runCycles ps
      (workerCycle_events_triggered prices ts store ev1 h1) r hrmem
      (by rw [hrid]; exact heq.symm)
    exact absurd (hract ▸ htrig) (by decide)

/-- Witness for C1: alert 1 is notified by the first cycle; after an
intermediate pass that notifies nothing, alert 2 is notified by a third
cycle, and the two notification attempts concern different ids. -/
theorem C1_witness :
    (TriggerEvent.mk 1 "EURUSD" "above" 1 2 11).id ≠
      (TriggerEvent.mk 2 "EURUSD" "above" 3 4 12).id :=
  C1_unguarded_trigger.2 c1wPrices1 11 c1wStore _ (by decide)
    [(c1wPrices1, 99)] c1wPrices2 12 _ (by decide)

/-- Counterexample to C2: the store reached by create, force-trigger, cancel
contains a row whose triggered_ts is set although its status is not
triggered — the unguarded cancel broke the claimed equivalence. -/
theorem C2_counterexample :
    Reachable c2Store ∧
    ∃ a ∈ c2Store, a.triggered_ts ≠ none ∧ a.status ≠ "triggered" := by
  constructor
  · exact Reachable.cancel 1 (Reachable.force 1 50
      (Reachable.create c2CreateForm 0 Reachable.empty
        (show create_alert c2CreateForm 0 [] = .ok s1 by rfl)))
  · exact ⟨c2Row, by decide, by decide, by decide⟩

/-- C2 as amended: only the forward half of the claimed equivalence holds on
every reachable store — a row in status triggered always has triggered_ts and
triggered_price set.  The converse fails, as the counterexample shows. -/
theorem C2_triggered_fields (s : List Alert) (h : Reachable s) :
    ∀ a ∈ s, a.status = "triggered" →
      a.triggered_ts ≠ none ∧ a.triggered_price ≠ none := by
  induction h with
  | empty =>
    intro a ha
    simp at ha
  | create form now hr hok ih => exact triggeredInv_create ih hok
  | cancel aid hr ih => exact triggeredInv_cancel ih aid
  | engine prices ts hr ih => exact triggeredInv_workerCycle prices ts ih
  | force aid ts hr ih => exact triggeredInv_markTriggered ih aid ts _

/-- Witness for C2: the force-triggered row of the reachable store
`force_trigger s1 1 50` has both trigger fields set. -/
theorem C2_witness :
    c2wRow.triggered_ts ≠ none ∧ c2wRow.triggered_price ≠ none :=
  C2_triggered_fields (force_trigger s1 1 50)
    (Reachable.force 1 50 (Reachable.create c2CreateForm 0 Reachable.empty
      (show create_alert c2CreateForm 0 [] = .ok s1 by rfl)))
    c2wRow (by decide) (by decide)

/-- C8: an active alert whose instrument is absent from the fetched prices, or
whose quote carries no usable price, is skipped by the cycle: its row survives
the cycle unchanged (in particular still active) and no error is possible —
the cycle is a total function.  The id-uniqueness hypothesis reflects the
PRIMARY KEY of the alerts table. -/
theorem C8_missing_quote_skips (prices : String → Option Quote) (ts : Nat)
    (store : List Alert) (hnd : (store.map Alert.id).Nodup) (a : Alert)
    (ha : a ∈ store)
    (hq : prices a.oanda_instrument = none ∨
      ∃ q, prices a.oanda_instrument = some q ∧ lastPrice q = none) :
    a ∈ (workerCycle prices ts store).1 := by
  unfold workerCycle
  refine List.foldlRecOn (motive := fun acc => a ∈ acc.1)
    (activeRows store) (processRow prices ts) (store, []) ha ?_
  intro acc hacc r hr
  rcases processRow_eq prices ts acc r with heq | ⟨data, v, hp, hl, ht, heq⟩
  · rw [heq]
    exact hacc
  · rw [heq]
    by_cases hid : a.id = r.id
    · have hrs : r ∈ store := (List.mem_filter.1 hr).1
      have hra : r = a := List.inj_on_of_nodup_map hnd hrs ha hid.symm
      subst hra
      rcases hq with h0 | ⟨q, hq1, hq2⟩
      · rw [h0] at hp
        cases hp
      · rw [hq1] at hp
        cases hp
        rw [hq2] at hl
        cases hl
    · exact mem_markTriggered_of_ne hacc hid ts v

/-- Witness for C8: with a price function returning no quotes, the single
active alert of `s1` survives the cycle unchanged. -/
theorem C8_witness : s1Row ∈ (workerCycle (fun _ => none) 7 s1).1 :=
  C8_missing_quote_skips (fun _ => none) 7 s1 (by decide) s1Row (by decide) (Or.inl rfl)

/-- Counterexample to C10: when the only present side is an ask of exactly
0.0, the assembled mid is 0.0 (not unavailable), the selection chain returns
0.0, and the engine does evaluate — and here trigger — the alert at an
observed price of exactly 0. -/
theorem C10_counterexample :
    (mkQuote [] [0]).bid = none ∧
    (mkQuote [] [0]).ask = some 0 ∧
    (mkQuote [] [0]).mid = some 0 ∧
    lastPrice (mkQuote [] [0]) = some 0 ∧
    (workerCycle c10Prices 5 c10Store).2 =
      [{ id := 1, instrument := "EURUSD", direction := "below", target := 1,
         price := 0, ts := 5 }] ∧
    (workerCycle c10Prices 5 c10Store).1.map Alert.triggered_price = [some 0] := by
  refine ⟨rfl, by decide, by decide, by decide, by decide, by decide⟩

/-- C10 as amended: a 0.0 price is treated as falsy, not as unavailable, with
asymmetric effect.  In quote assembly a lone bid of 0.0 yields an unavailable
mid but a lone ask of 0.0 yields a mid of 0.0; in the engine the selection
chain falls past a 0.0 mid and a 0.0 bid yet returns the ask field as-is, so
the selected last price can be exactly 0 — precisely when the quote's ask is
0.0. -/
theorem C10_zero_price (q : Quote) :
    mkMid (some 0) none = none ∧
    mkMid none (some 0) = some 0 ∧
    (lastPrice q = some 0 → q.ask = some 0) := by
  refine ⟨by decide, rfl, ?_⟩
  intro h
  unfold lastPrice pyOrQ at h
  by_cases h1 : pyTruthyQ q.mid
  · rw [if_pos h1, if_pos h1] at h
    rw [h] at h1
    exact absurd h1 (by decide)
  · rw [if_neg h1] at h
    by_cases h2 : pyTruthyQ q.bid
    · rw [if_pos h2] at h
      rw [h] at h2
      exact absurd h2 (by decide)
    · rw [if_neg h2] at h
      exact h

/-- Witness for C10: the quote with a lone 0.0 ask selects last price 0, and
its ask is indeed 0. -/
theorem C10_witness : (mkQuote [] [0]).ask = some 0 :=
  (C10_zero_price (mkQuote [] [0])).2.2 (by decide)

end TradingAlert
